import Mathlib

/-!
Shallow embedding of `src/script.js`, a Vue + Web Audio widget that
crossfades between two looping soundscapes ("above" / "below"), with
play/pause, a scrub/seek control, and a one-shot splash sound.

Numbers that the script manipulates (times, gains, durations, slider
values) are modelled as rationals; where finiteness of a JS number
matters (`Number.isFinite`, `isFinite`) the input is a `JSNum`, a
rational tagged with the three non-finite IEEE values.  The Web Audio
objects are modelled by records that track exactly the attributes the
script reads or writes; `AudioParam` automation (`setValueAtTime`,
`linearRampToValueAtTime`, `cancelScheduledValues`) is modelled as an
explicit event list.  Asynchronous `suspend`/`resume` promises are
modelled by a boolean parameter saying whether the promise resolved.
-/

/-- A JavaScript number: either a finite value (modelled as a rational)
or one of the three non-finite IEEE values. -/
inductive JSNum where
  | nan : JSNum
  | posInf : JSNum
  | negInf : JSNum
  | fin : ℚ → JSNum
deriving DecidableEq

/-- Models `Number.isFinite` on a `JSNum`. -/
def JSNum.isFinite : JSNum → Bool
  | .fin _ => true
  | _ => false

/-- Truncation toward zero on rationals, the rounding used by the
JavaScript `%` operator. -/
def ratTrunc (q : ℚ) : ℤ := if 0 ≤ q then ⌊q⌋ else ⌈q⌉

/-- The JavaScript remainder operator `a % b` on finite numbers:
`a - b * trunc(a / b)` (the result keeps the sign of `a`). -/
def jsRem (a b : ℚ) : ℚ := a - b * (ratTrunc (a / b) : ℚ)

/-- The offset-wrapping expression of `createLoopingNodes`:
`(startOffset % buffer.duration + buffer.duration) % buffer.duration`. -/
def wrapOffset (startOffset duration : ℚ) : ℚ :=
  jsRem (jsRem startOffset duration + duration) duration

/-- The timeline normalisation used by the RAF tick and by `togglePlay`:
`let t = x % d; if (t < 0) t += d`. -/
def wrapTime (x d : ℚ) : ℚ :=
  let t := jsRem x d
  if t < 0 then t + d else t

/-- Models `x || 0` on a slider/progress value.  For a finite (rational) value
this is the identity: the only falsy rational is `0`, and then the
result is again `0`. -/
def jsOrZero (q : ℚ) : ℚ := q

/-- A decoded audio buffer; the script only ever reads `duration`. -/
structure Buffer where
  duration : ℚ
deriving DecidableEq

/-- One automation event scheduled on an `AudioParam`. -/
inductive GainEvent where
  | setValue : ℚ → ℚ → GainEvent      -- time, value
  | linearRamp : ℚ → ℚ → GainEvent    -- end time, target value
deriving DecidableEq

/-- The scheduled time of an automation event. -/
def GainEvent.time : GainEvent → ℚ
  | .setValue t _ => t
  | .linearRamp t _ => t

/-- An `AudioParam` (a `GainNode`'s `gain`): its current value and the
list of scheduled automation events, in scheduling order. -/
structure GainParam where
  value : ℚ
  events : List GainEvent
deriving DecidableEq

/-- Models `param.cancelScheduledValues(t)`: removes every event scheduled at
time `t` or later. -/
def cancelScheduledValues (g : GainParam) (t : ℚ) : GainParam :=
  { g with events := g.events.filter (fun e => decide (e.time < t)) }

/-- Models `param.setValueAtTime(v, t)`. -/
def setValueAtTime (g : GainParam) (v t : ℚ) : GainParam :=
  { g with events := g.events ++ [GainEvent.setValue t v] }

/-- Models `param.linearRampToValueAtTime(v, t)`. -/
def linearRampToValueAtTime (g : GainParam) (v t : ℚ) : GainParam :=
  { g with events := g.events ++ [GainEvent.linearRamp t v] }

/-- The two soundscapes. -/
inductive Side where
  | above : Side
  | below : Side
deriving DecidableEq

/-- Models `AudioContext.state`, restricted to the two states the script
distinguishes. -/
inductive CtxState where
  | running : CtxState
  | suspended : CtxState
deriving DecidableEq

/-- The `AudioContext`: the script reads `currentTime` and `state`. -/
structure AudioCtx where
  currentTime : ℚ
  state : CtxState
deriving DecidableEq

/-- A looping `AudioBufferSourceNode` as configured by
`createLoopingNodes`: its buffer, `loop` flag, the offset passed to
`start(0, off)`, and whether it has been stopped / disconnected. -/
structure SourceNode where
  buffer : Buffer
  loop : Bool
  startOffset : ℚ
  stopped : Bool
  connected : Bool
deriving DecidableEq

/-- A one-shot source created by `playSplash`: its buffer, its `loop`
flag (left at the `createBufferSource` default `false`) and the
dedicated gain node it is connected through. -/
structure OneShot where
  buffer : Buffer
  loop : Bool
  gain : GainParam
deriving DecidableEq

/-- The mutable state captured by the component's `setup()` closure.
`stoppedLog` records every source passed to `stopAndDisconnect`, and
`splashPlays` every one-shot created by `playSplash`, so that theorems
can speak about sources that the script itself drops. -/
structure ScriptState where
  active : Side
  fadeDuration : JSNum
  isPlaying : Bool
  progress : ℚ
  progressMax : ℚ
  progressEnabled : Bool
  isScrubbing : Bool
  audioCtx : Option AudioCtx
  aboveBuffer : Option Buffer
  belowBuffer : Option Buffer
  splashBuffer : Option Buffer
  aboveSource : Option SourceNode
  belowSource : Option SourceNode
  aboveGain : Option GainParam
  belowGain : Option GainParam
  playbackBaseTime : Option ℚ
  stoppedLog : List SourceNode
  splashPlays : List OneShot
deriving DecidableEq

/-- The buffer of the currently active soundscape:
`(active.value === 'above') ? aboveBuffer : belowBuffer`. -/
def activeBuffer (s : ScriptState) : Option Buffer :=
  if s.active = Side.above then s.aboveBuffer else s.belowBuffer

/-- Models `createLoopingNodes(buffer, startOffset, initialGain)`: returns
`null` for a missing buffer, otherwise a looping source started at the
wrapped offset together with a gain node at `initialGain`. -/
def createLoopingNodes (_ctx : AudioCtx) (buffer : Option Buffer)
    (startOffset : ℚ) (initialGain : ℚ) : Option (SourceNode × GainParam) :=
  match buffer with
  | none => none
  | some buf =>
      let off := wrapOffset startOffset buf.duration
      some ({ buffer := buf, loop := true, startOffset := off,
              stopped := false, connected := true },
            { value := initialGain, events := [] })

/-- Models `stopAndDisconnect(node)`: a `null` node is ignored; otherwise the
node is stopped and disconnected (recorded by appending it to the log). -/
def stopAndDisconnect (log : List SourceNode) (node : Option SourceNode) :
    List SourceNode :=
  match node with
  | none => log
  | some n => log ++ [{ n with stopped := true, connected := false }]

/-- Models `restartSourcesAt(offset)`: no-op without an audio context;
otherwise stops and disconnects both sources, recreates a looping
source per loaded buffer at `offset` with gain 1 on the active side and
0 on the other, and sets `playbackBaseTime = currentTime - offset`. -/
def restartSourcesAt (s : ScriptState) (offset : ℚ) : ScriptState :=
  match s.audioCtx with
  | none => s
  | some ctx =>
      let log := stopAndDisconnect (stopAndDisconnect s.stoppedLog s.aboveSource) s.belowSource
      let s1 := { s with stoppedLog := log, aboveSource := none, belowSource := none,
                         aboveGain := none, belowGain := none }
      let s2 :=
        match createLoopingNodes ctx s.aboveBuffer offset
            (if s.active = Side.above then 1 else 0) with
        | some nodes => { s1 with aboveSource := some nodes.1, aboveGain := some nodes.2 }
        | none => s1
      let s3 :=
        match createLoopingNodes ctx s.belowBuffer offset
            (if s.active = Side.below then 1 else 0) with
        | some nodes => { s2 with belowSource := some nodes.1, belowGain := some nodes.2 }
        | none => s2
      { s3 with playbackBaseTime := some (ctx.currentTime - offset) }

/-- Models `updateProgressMax()`: sets the slider maximum from the active
buffer (`Math.max(0.01, duration)`, or `1` when the buffer is missing),
enables the slider exactly when the buffer is loaded, and clamps the
current slider value down to the new maximum. -/
def updateProgressMax (s : ScriptState) : ScriptState :=
  let buf := activeBuffer s
  let pm : ℚ := match buf with
    | some b => max (1/100) b.duration
    | none => 1
  let s1 := { s with progressMax := pm, progressEnabled := buf.isSome }
  if s1.progress > pm then { s1 with progress := pm } else s1

/-- Models `audioCtx.resume()`, assumed to succeed iff `ok`: on success the
context ends up running. -/
def resumeCtx (ctx : AudioCtx) (ok : Bool) : AudioCtx :=
  if ok then { ctx with state := CtxState.running } else ctx

/-- Models `playSplash()`: returns immediately when the audio context or the
splash buffer is missing; otherwise resumes a suspended context
(promise outcome `resumeOk`) and creates a one-shot (non-looping)
source for the splash buffer connected through its own gain node whose
gain is set to 1 at the current time. -/
def playSplash (s : ScriptState) (resumeOk : Bool) : ScriptState :=
  match s.audioCtx with
  | none => s
  | some ctx =>
      match s.splashBuffer with
      | none => s
      | some buf =>
          let ctx2 := if ctx.state = CtxState.suspended then resumeCtx ctx resumeOk else ctx
          let g0 : GainParam := { value := 1, events := [] }
          let g := setValueAtTime g0 1 ctx.currentTime
          let oneShot : OneShot := { buffer := buf, loop := false, gain := g }
          { s with audioCtx := some ctx2, splashPlays := s.splashPlays ++ [oneShot] }

/-- The opposite soundscape:
`active.value === 'above' ? 'below' : 'above'`. -/
def flipSide : Side → Side
  | Side.above => Side.below
  | Side.below => Side.above

/-- The crossfade duration in seconds:
`Math.max(0.001, Number.isFinite(fadeDuration) ? fadeDuration / 1000 : 1)`. -/
def durSecOf (fadeDuration : JSNum) : ℚ :=
  max (1/1000) (match fadeDuration with
    | JSNum.fin q => q / 1000
    | _ => 1)

/-- Models `audioCtx ? audioCtx.currentTime : 0`. -/
def nowOf (o : Option AudioCtx) : ℚ :=
  match o with
  | some ctx => ctx.currentTime
  | none => 0

/-- Models `crossfade()`: flips `active`, updates the slider bounds, plays the
splash, then for each existing gain node cancels its scheduled values
at `now`, pins it at its current value and ramps it linearly to its
target (1 on the newly active side, 0 on the other) over `durSec`. -/
def crossfade (s : ScriptState) (resumeOk : Bool) : ScriptState :=
  let next := flipSide s.active
  let s1 := { s with active := next }
  let s2 := updateProgressMax s1
  let s3 := playSplash s2 resumeOk
  let durSec := durSecOf s3.fadeDuration
  let now : ℚ := nowOf s3.audioCtx
  let s4 :=
    match s3.aboveGain with
    | none => s3
    | some g =>
        let target : ℚ := if next = Side.above then 1 else 0
        let g1 := cancelScheduledValues g now
        let g2 := setValueAtTime g1 g1.value now
        let g3 := linearRampToValueAtTime g2 target (now + durSec)
        { s3 with aboveGain := some g3 }
  match s4.belowGain with
  | none => s4
  | some g =>
      let target : ℚ := if next = Side.above then 0 else 1
      let g1 := cancelScheduledValues g now
      let g2 := setValueAtTime g1 g1.value now
      let g3 := linearRampToValueAtTime g2 target (now + durSec)
      { s4 with belowGain := some g3 }

/-- Models `togglePlay()`, with `promiseOk` the outcome of the
`suspend()`/`resume()` promise.  Playing: capture the current timeline
position into `progress` and suspend (on success `isPlaying` becomes
false).  Paused: set `playbackBaseTime` from `progress`, restart both
sources at `progress`, and resume (on success `isPlaying` becomes
true). -/
def togglePlay (s : ScriptState) (promiseOk : Bool) : ScriptState :=
  match s.audioCtx with
  | none => s
  | some ctx =>
      if s.isPlaying then
        let s1 :=
          match s.playbackBaseTime with
          | none => s
          | some base =>
              match activeBuffer s with
              | none => s
              | some b =>
                  { s with progress := wrapTime (ctx.currentTime - base) b.duration }
        if promiseOk then
          { s1 with audioCtx := some { ctx with state := CtxState.suspended },
                    isPlaying := false }
        else s1
      else
        let s1 := { s with playbackBaseTime := some (ctx.currentTime - jsOrZero s.progress) }
        let s2 := restartSourcesAt s1 (jsOrZero s1.progress)
        if promiseOk then
          { s2 with audioCtx := some { ctx with state := CtxState.running },
                    isPlaying := true }
        else s2

/-- Models `onScrub()`: mark scrubbing and restart both sources at the chosen
progress value. -/
def onScrub (s : ScriptState) : ScriptState :=
  restartSourcesAt { s with isScrubbing := true } (jsOrZero s.progress)

/-- Models `onScrubEnd()`, with `resumeOk` the outcome of the `resume()`
promise: clear the scrubbing flag, recompute `playbackBaseTime` from
`progress`, and resume a suspended context when `isPlaying` is set. -/
def onScrubEnd (s : ScriptState) (resumeOk : Bool) : ScriptState :=
  let s1 := { s with isScrubbing := false }
  let s2 :=
    match s1.audioCtx with
    | some ctx => { s1 with playbackBaseTime := some (ctx.currentTime - jsOrZero s1.progress) }
    | none => { s1 with playbackBaseTime := none }
  match s2.audioCtx with
  | some ctx =>
      if ctx.state = CtxState.suspended ∧ s2.isPlaying then
        { s2 with audioCtx := some (resumeCtx ctx resumeOk) }
      else s2
  | none => s2

/-- Models `n.toString()` for a JavaScript integer-valued number. -/
def jsIntToString (n : ℤ) : String :=
  if n < 0 then "-" ++ Nat.repr n.natAbs else Nat.repr n.natAbs

/-- Models `str.padStart(2, '0')`. -/
def padTwo (str : String) : String :=
  if str.length < 2 then String.mk (List.replicate (2 - str.length) (Char.ofNat 48)) ++ str
  else str

/-- Models `formatTime(s)`: `'0:00'` for non-finite or negative inputs,
otherwise `Math.floor(s/60)` then `:` then `Math.floor(s % 60)` padded
to two digits. -/
def formatTime (x : JSNum) : String :=
  match x with
  | JSNum.fin s =>
      if s < 0 then "0:00"
      else
        let m : ℤ := ⌊s / 60⌋
        let sec : ℤ := ⌊jsRem s 60⌋
        jsIntToString m ++ ":" ++ padTwo (jsIntToString sec)
  | _ => "0:00"

/-- Outcome of `fetch(path)`: the promise rejects, or resolves with a
response whose `ok` flag is given. -/
inductive FetchOutcome where
  | reject : FetchOutcome
  | resolve : Bool → FetchOutcome
deriving DecidableEq

/-- Outcome of `resp.arrayBuffer()`. -/
inductive BodyOutcome where
  | reject : BodyOutcome
  | resolve : BodyOutcome
deriving DecidableEq

/-- Outcome of `audioCtx.decodeAudioData(array)`. -/
inductive DecodeOutcome where
  | reject : DecodeOutcome
  | resolve : Buffer → DecodeOutcome
deriving DecidableEq

/-- The `try` block of `loadBuffer(path)`: each awaited step may throw
(`Except.error`), and a response with `ok` false throws
`new Error('fetch failed')`. -/
def loadBufferTry (f : FetchOutcome) (a : BodyOutcome) (d : DecodeOutcome) :
    Except Unit Buffer :=
  match f with
  | FetchOutcome.reject => Except.error ()
  | FetchOutcome.resolve ok =>
      if ok = false then Except.error ()
      else
        match a with
        | BodyOutcome.reject => Except.error ()
        | BodyOutcome.resolve =>
            match d with
            | DecodeOutcome.reject => Except.error ()
            | DecodeOutcome.resolve buf => Except.ok buf

/-- Models `loadBuffer(path)`: the `try` block wrapped in the `catch` that
turns every thrown error into `null`. -/
def loadBuffer (f : FetchOutcome) (a : BodyOutcome) (d : DecodeOutcome) :
    Option Buffer :=
  match loadBufferTry f a d with
  | Except.ok buf => some buf
  | Except.error _ => none

/-- Spec-level description of a gain node after `crossfade`'s
scheduling block: events at or after `now` dropped, the current value
pinned at `now`, and a linear ramp to `target` ending at `now + dur`. -/
def scheduledGain (g : GainParam) (now dur target : ℚ) : GainParam :=
  { value := g.value,
    events := g.events.filter (fun e => decide (e.time < now)) ++
      [GainEvent.setValue now g.value, GainEvent.linearRamp (now + dur) target] }

/-- A concrete audio context used by the witness theorems. -/
def sampleCtx : AudioCtx := { currentTime := 10, state := CtxState.running }

/-- A concrete decoded buffer used by the witness theorems. -/
def sampleBuffer : Buffer := { duration := 4 }

/-- A concrete closure state used by the witness theorems: both
soundscapes loaded, "above" active and playing. -/
def sampleState : ScriptState :=
  { active := Side.above, fadeDuration := JSNum.fin 1000, isPlaying := true,
    progress := 2, progressMax := 4, progressEnabled := true, isScrubbing := false,
    audioCtx := some sampleCtx, aboveBuffer := some sampleBuffer,
    belowBuffer := some { duration := 6 }, splashBuffer := some { duration := 1 },
    aboveSource := none, belowSource := none,
    aboveGain := some { value := 1, events := [] },
    belowGain := some { value := 0, events := [] },
    playbackBaseTime := some 8, stoppedLog := [], splashPlays := [] }

/-! ### Arithmetic facts about the JavaScript remainder -/

theorem jsRem_eq_sub_floor (a b : ℚ) (ha : 0 ≤ a) (hb : 0 < b) :
    jsRem a b = a - b * (⌊a / b⌋ : ℚ) := by
  unfold jsRem ratTrunc
  rw [if_pos (div_nonneg ha hb.le)]

theorem jsRem_nonneg_bounds (a b : ℚ) (ha : 0 ≤ a) (hb : 0 < b) :
    0 ≤ jsRem a b ∧ jsRem a b < b := by
  rw [jsRem_eq_sub_floor a b ha hb]
  have h1 := Int.sub_floor_div_mul_nonneg a hb
  have h2 := Int.sub_floor_div_mul_lt a hb
  constructor <;> nlinarith [h1, h2]

theorem jsRem_neg_bounds (a b : ℚ) (ha : a < 0) (hb : 0 < b) :
    -b < jsRem a b ∧ jsRem a b ≤ 0 := by
  have hq : ¬ (0 ≤ a / b) := not_le.mpr (div_neg_of_neg_of_pos ha hb)
  have hbne : b ≠ 0 := ne_of_gt hb
  unfold jsRem ratTrunc
  rw [if_neg hq]
  have h1 : a / b ≤ ((⌈a / b⌉ : ℤ) : ℚ) := Int.le_ceil _
  have h2 : ((⌈a / b⌉ : ℤ) : ℚ) < a / b + 1 := Int.ceil_lt_add_one _
  have hd : b * (a / b) = a := by field_simp
  have hmul1 : b * (a / b) ≤ b * ((⌈a / b⌉ : ℤ) : ℚ) :=
    mul_le_mul_of_nonneg_left h1 hb.le
  have hmul2 : b * ((⌈a / b⌉ : ℤ) : ℚ) < b * (a / b + 1) :=
    (mul_lt_mul_left hb).mpr h2
  constructor <;> nlinarith [hmul1, hmul2, hd]

theorem wrapOffset_bounds (x d : ℚ) (hd : 0 < d) :
    0 ≤ wrapOffset x d ∧ wrapOffset x d < d := by
  unfold wrapOffset
  have hrange : -d < jsRem x d ∧ jsRem x d < d := by
    rcases le_or_lt 0 x with hx | hx
    · have h := jsRem_nonneg_bounds x d hx hd
      exact ⟨by linarith [h.1], h.2⟩
    · have h := jsRem_neg_bounds x d hx hd
      exact ⟨h.1, by linarith [h.2]⟩
  exact jsRem_nonneg_bounds (jsRem x d + d) d (by linarith [hrange.1]) hd

theorem wrapTime_bounds (x d : ℚ) (hd : 0 < d) :
    0 ≤ wrapTime x d ∧ wrapTime x d < d := by
  unfold wrapTime
  rcases le_or_lt 0 x with hx | hx
  · have h := jsRem_nonneg_bounds x d hx hd
    rw [if_neg (not_lt.mpr h.1)]
    exact h
  · have h := jsRem_neg_bounds x d hx hd
    rcases lt_or_le (jsRem x d) 0 with hneg | hge
    · rw [if_pos hneg]
      exact ⟨by linarith [h.1], by linarith [h.2]⟩
    · rw [if_neg (not_lt.mpr hge)]
      exact ⟨hge, by linarith [h.2]⟩

/-! ### Structural lemmas about the state operations -/

theorem updateProgressMax_active (s : ScriptState) :
    (updateProgressMax s).active = s.active := by
  simp only [updateProgressMax]; split <;> rfl

theorem updateProgressMax_fadeDuration (s : ScriptState) :
    (updateProgressMax s).fadeDuration = s.fadeDuration := by
  simp only [updateProgressMax]; split <;> rfl

theorem updateProgressMax_audioCtx (s : ScriptState) :
    (updateProgressMax s).audioCtx = s.audioCtx := by
  simp only [updateProgressMax]; split <;> rfl

theorem updateProgressMax_splashBuffer (s : ScriptState) :
    (updateProgressMax s).splashBuffer = s.splashBuffer := by
  simp only [updateProgressMax]; split <;> rfl

theorem updateProgressMax_splashPlays (s : ScriptState) :
    (updateProgressMax s).splashPlays = s.splashPlays := by
  simp only [updateProgressMax]; split <;> rfl

theorem updateProgressMax_aboveGain (s : ScriptState) :
    (updateProgressMax s).aboveGain = s.aboveGain := by
  simp only [updateProgressMax]; split <;> rfl

theorem updateProgressMax_belowGain (s : ScriptState) :
    (updateProgressMax s).belowGain = s.belowGain := by
  simp only [updateProgressMax]; split <;> rfl

theorem playSplash_active (s : ScriptState) (ok : Bool) :
    (playSplash s ok).active = s.active := by
  unfold playSplash
  cases hc : s.audioCtx with
  | none => rfl
  | some ctx => cases hb : s.splashBuffer with
    | none => rfl
    | some b => rfl

theorem playSplash_fadeDuration (s : ScriptState) (ok : Bool) :
    (playSplash s ok).fadeDuration = s.fadeDuration := by
  unfold playSplash
  cases hc : s.audioCtx with
  | none => rfl
  | some ctx => cases hb : s.splashBuffer with
    | none => rfl
    | some b => rfl

theorem playSplash_aboveGain (s : ScriptState) (ok : Bool) :
    (playSplash s ok).aboveGain = s.aboveGain := by
  unfold playSplash
  cases hc : s.audioCtx with
  | none => rfl
  | some ctx => cases hb : s.splashBuffer with
    | none => rfl
    | some b => rfl

theorem playSplash_belowGain (s : ScriptState) (ok : Bool) :
    (playSplash s ok).belowGain = s.belowGain := by
  unfold playSplash
  cases hc : s.audioCtx with
  | none => rfl
  | some ctx => cases hb : s.splashBuffer with
    | none => rfl
    | some b => rfl

theorem resumeCtx_currentTime (ctx : AudioCtx) (ok : Bool) :
    (resumeCtx ctx ok).currentTime = ctx.currentTime := by
  unfold resumeCtx; split <;> rfl

theorem playSplash_nowOf (s : ScriptState) (ok : Bool) :
    nowOf (playSplash s ok).audioCtx = nowOf s.audioCtx := by
  unfold playSplash
  cases hc : s.audioCtx with
  | none => rw [hc]
  | some ctx =>
      cases hb : s.splashBuffer with
      | none => rw [hc]
      | some b =>
          simp only [nowOf]
          split
          · exact resumeCtx_currentTime ctx ok
          · rfl

theorem crossfade_active_eq (s : ScriptState) (ok : Bool) :
    (crossfade s ok).active = flipSide s.active := by
  simp only [crossfade, playSplash_aboveGain, updateProgressMax_aboveGain]
  rcases hag : s.aboveGain with _ | g <;>
    simp only [playSplash_belowGain, updateProgressMax_belowGain] <;>
      rcases hbg : s.belowGain with _ | g' <;>
        simp only [playSplash_active, updateProgressMax_active]


theorem nowOf_some (ctx : AudioCtx) : nowOf (some ctx) = ctx.currentTime := rfl

theorem crossfade_aboveGain_eq (s : ScriptState) (ok : Bool) (ctx : AudioCtx) (g : GainParam)
    (hctx : s.audioCtx = some ctx) (hg : s.aboveGain = some g) :
    (crossfade s ok).aboveGain =
      some (scheduledGain g ctx.currentTime (durSecOf s.fadeDuration)
        (if flipSide s.active = Side.above then 1 else 0)) := by
  simp only [crossfade, playSplash_aboveGain, updateProgressMax_aboveGain, hg,
    playSplash_fadeDuration, updateProgressMax_fadeDuration,
    playSplash_nowOf, updateProgressMax_audioCtx, hctx, nowOf_some]
  rcases hbg : s.belowGain with _ | g2 <;>
    simp only [playSplash_belowGain, updateProgressMax_belowGain, hbg] <;>
      simp [scheduledGain, cancelScheduledValues, setValueAtTime, linearRampToValueAtTime]

theorem crossfade_belowGain_eq (s : ScriptState) (ok : Bool) (ctx : AudioCtx) (g : GainParam)
    (hctx : s.audioCtx = some ctx) (hg : s.belowGain = some g) :
    (crossfade s ok).belowGain =
      some (scheduledGain g ctx.currentTime (durSecOf s.fadeDuration)
        (if flipSide s.active = Side.above then 0 else 1)) := by
  simp only [crossfade, playSplash_belowGain, updateProgressMax_belowGain, hg,
    playSplash_fadeDuration, updateProgressMax_fadeDuration,
    playSplash_nowOf, updateProgressMax_audioCtx, hctx, nowOf_some]
  rcases hag : s.aboveGain with _ | g2 <;>
    simp only [playSplash_aboveGain, updateProgressMax_aboveGain, hag,
      playSplash_belowGain, updateProgressMax_belowGain] <;>
      simp [scheduledGain, cancelScheduledValues, setValueAtTime, linearRampToValueAtTime]

theorem wrapTime_eq_sub_floor (x d : ℚ) (hd : 0 < d) :
    wrapTime x d = x - d * (⌊x / d⌋ : ℚ) := by
  unfold wrapTime
  rcases le_or_lt 0 x with hx | hx
  · have h := jsRem_nonneg_bounds x d hx hd
    rw [if_neg (not_lt.mpr h.1), jsRem_eq_sub_floor x d hx hd]
  · have hq : ¬ (0 ≤ x / d) := not_le.mpr (div_neg_of_neg_of_pos hx hd)
    have hdne : d ≠ 0 := ne_of_gt hd
    have hrem : jsRem x d = x - d * ((⌈x / d⌉ : ℤ) : ℚ) := by
      unfold jsRem ratTrunc
      rw [if_neg hq]
    by_cases h0 : jsRem x d < 0
    · rw [if_pos h0, hrem]
      have hne : (⌈x / d⌉ : ℤ) ≠ ⌊x / d⌋ := by
        intro heq
        have hfl : ((⌊x / d⌋ : ℤ) : ℚ) ≤ x / d := Int.floor_le _
        have hcl : x / d ≤ ((⌈x / d⌉ : ℤ) : ℚ) := Int.le_ceil _
        have hxdq : x / d = ((⌈x / d⌉ : ℤ) : ℚ) := by
          rw [heq] at hcl ⊢
          exact le_antisymm hcl hfl
        have hx0 : x = d * ((⌈x / d⌉ : ℤ) : ℚ) := by
          field_simp at hxdq
          linarith [hxdq]
        have : jsRem x d = 0 := by rw [hrem]; linarith [hx0]
        exact absurd this (ne_of_lt h0)
      have hle : (⌈x / d⌉ : ℤ) ≤ ⌊x / d⌋ + 1 := Int.ceil_le_floor_add_one _
      have hge : (⌊x / d⌋ : ℤ) ≤ ⌈x / d⌉ := Int.floor_le_ceil _
      have hceq : (⌈x / d⌉ : ℤ) = ⌊x / d⌋ + 1 := by omega
      rw [hceq]
      push_cast
      ring
    · rw [if_neg h0]
      have hb := jsRem_neg_bounds x d hx hd
      have h00 : jsRem x d = 0 := le_antisymm hb.2 (not_lt.mp h0)
      set c : ℤ := ⌈x / d⌉ with hc
      have h1 : x - d * (c : ℚ) = 0 := by rw [← hrem]; exact h00
      have hx0 : x = d * (c : ℚ) := by linarith
      have hint : x / d = (c : ℚ) := by rw [hx0]; field_simp
      have hfc : (⌊x / d⌋ : ℤ) = c := by rw [hint]; exact Int.floor_intCast c
      rw [h00, hfc]
      linarith

theorem playSplash_splashPlays_some (s : ScriptState) (ok : Bool) (ctx : AudioCtx) (buf : Buffer)
    (hc : s.audioCtx = some ctx) (hb : s.splashBuffer = some buf) :
    (playSplash s ok).splashPlays = s.splashPlays ++
      [{ buffer := buf, loop := false,
         gain := { value := 1, events := [GainEvent.setValue ctx.currentTime 1] } }] := by
  unfold playSplash
  rw [hc, hb]
  simp [setValueAtTime]

theorem playSplash_noCtx (s : ScriptState) (ok : Bool) (h : s.audioCtx = none) :
    playSplash s ok = s := by
  unfold playSplash
  rw [h]

theorem playSplash_noSplash (s : ScriptState) (ok : Bool) (h : s.splashBuffer = none) :
    playSplash s ok = s := by
  unfold playSplash
  cases hc : s.audioCtx with
  | none => rfl
  | some ctx => rw [h]

theorem mem_stopAndDisconnect (a : SourceNode) (log : List SourceNode) (node : Option SourceNode)
    (h : a ∈ log) : a ∈ stopAndDisconnect log node := by
  cases node with
  | none => exact h
  | some n => exact List.mem_append_left _ h

theorem self_mem_stopAndDisconnect (log : List SourceNode) (n : SourceNode) :
    { n with stopped := true, connected := false } ∈ stopAndDisconnect log (some n) := by
  unfold stopAndDisconnect
  exact List.mem_append_right _ (List.mem_singleton.mpr rfl)

theorem restartSourcesAt_isScrubbing (s : ScriptState) (off : ℚ) :
    (restartSourcesAt s off).isScrubbing = s.isScrubbing := by
  unfold restartSourcesAt
  cases hc : s.audioCtx with
  | none => rfl
  | some ctx =>
      rcases hab : s.aboveBuffer with _ | b <;> rcases hbb : s.belowBuffer with _ | b2 <;>
        simp [createLoopingNodes]

theorem restartSourcesAt_stoppedLog (s : ScriptState) (off : ℚ) (ctx : AudioCtx)
    (hctx : s.audioCtx = some ctx) :
    (restartSourcesAt s off).stoppedLog =
      stopAndDisconnect (stopAndDisconnect s.stoppedLog s.aboveSource) s.belowSource := by
  unfold restartSourcesAt
  rw [hctx]
  rcases hab : s.aboveBuffer with _ | b <;> rcases hbb : s.belowBuffer with _ | b2 <;>
    simp [createLoopingNodes]

theorem restartSourcesAt_playbackBaseTime (s : ScriptState) (off : ℚ) (ctx : AudioCtx)
    (hctx : s.audioCtx = some ctx) :
    (restartSourcesAt s off).playbackBaseTime = some (ctx.currentTime - off) := by
  unfold restartSourcesAt
  rw [hctx]

theorem restartSourcesAt_aboveSource_some (s : ScriptState) (off : ℚ) (ctx : AudioCtx) (b : Buffer)
    (hctx : s.audioCtx = some ctx) (hb : s.aboveBuffer = some b) :
    (restartSourcesAt s off).aboveSource = some
      { buffer := b, loop := true, startOffset := wrapOffset off b.duration,
        stopped := false, connected := true } ∧
    (restartSourcesAt s off).aboveGain = some
      { value := if s.active = Side.above then 1 else 0, events := [] } := by
  unfold restartSourcesAt
  rw [hctx, hb]
  rcases hbb : s.belowBuffer with _ | b2 <;>
    simp [createLoopingNodes]

theorem restartSourcesAt_aboveSource_none (s : ScriptState) (off : ℚ) (ctx : AudioCtx)
    (hctx : s.audioCtx = some ctx) (hb : s.aboveBuffer = none) :
    (restartSourcesAt s off).aboveSource = none := by
  unfold restartSourcesAt
  rw [hctx, hb]
  rcases hbb : s.belowBuffer with _ | b2 <;>
    simp [createLoopingNodes]

theorem restartSourcesAt_belowSource_some (s : ScriptState) (off : ℚ) (ctx : AudioCtx) (b : Buffer)
    (hctx : s.audioCtx = some ctx) (hb : s.belowBuffer = some b) :
    (restartSourcesAt s off).belowSource = some
      { buffer := b, loop := true, startOffset := wrapOffset off b.duration,
        stopped := false, connected := true } ∧
    (restartSourcesAt s off).belowGain = some
      { value := if s.active = Side.below then 1 else 0, events := [] } := by
  unfold restartSourcesAt
  rw [hctx, hb]
  rcases hab : s.aboveBuffer with _ | b2 <;>
    simp [createLoopingNodes]

theorem restartSourcesAt_belowSource_none (s : ScriptState) (off : ℚ) (ctx : AudioCtx)
    (hctx : s.audioCtx = some ctx) (hb : s.belowBuffer = none) :
    (restartSourcesAt s off).belowSource = none := by
  unfold restartSourcesAt
  rw [hctx, hb]
  rcases hab : s.aboveBuffer with _ | b2 <;>
    simp [createLoopingNodes]

theorem crossfade_splashPlays_tail (s : ScriptState) (ok : Bool) :
    (crossfade s ok).splashPlays =
      (playSplash (updateProgressMax { s with active := flipSide s.active }) ok).splashPlays := by
  simp only [crossfade]
  generalize playSplash (updateProgressMax { s with active := flipSide s.active }) ok = s3
  rcases hag : s3.aboveGain with _ | g <;>
    rcases hbg : s3.belowGain with _ | g2 <;>
      simp [hag, hbg]

theorem crossfade_splashPlays_some (s : ScriptState) (ok : Bool) (ctx : AudioCtx) (buf : Buffer)
    (hc : s.audioCtx = some ctx) (hb : s.splashBuffer = some buf) :
    (crossfade s ok).splashPlays = s.splashPlays ++
      [{ buffer := buf, loop := false,
         gain := { value := 1, events := [GainEvent.setValue ctx.currentTime 1] } }] := by
  have h2c : (updateProgressMax { s with active := flipSide s.active }).audioCtx = some ctx := by
    rw [updateProgressMax_audioCtx]
    exact hc
  have h2b : (updateProgressMax { s with active := flipSide s.active }).splashBuffer = some buf := by
    rw [updateProgressMax_splashBuffer]
    exact hb
  rw [crossfade_splashPlays_tail, playSplash_splashPlays_some _ ok ctx buf h2c h2b,
    updateProgressMax_splashPlays]

theorem crossfade_splashPlays_noCtx (s : ScriptState) (ok : Bool) (h : s.audioCtx = none) :
    (crossfade s ok).splashPlays = s.splashPlays := by
  have h3 : playSplash (updateProgressMax { s with active := flipSide s.active }) ok =
      updateProgressMax { s with active := flipSide s.active } :=
    playSplash_noCtx _ ok (by rw [updateProgressMax_audioCtx]; exact h)
  rw [crossfade_splashPlays_tail, h3, updateProgressMax_splashPlays]

theorem crossfade_splashPlays_noSplash (s : ScriptState) (ok : Bool) (h : s.splashBuffer = none) :
    (crossfade s ok).splashPlays = s.splashPlays := by
  have h3 : playSplash (updateProgressMax { s with active := flipSide s.active }) ok =
      updateProgressMax { s with active := flipSide s.active } :=
    playSplash_noSplash _ ok (by rw [updateProgressMax_splashBuffer]; exact h)
  rw [crossfade_splashPlays_tail, h3, updateProgressMax_splashPlays]

/-! ### Claim theorems -/

/-- C2: `loadBuffer` never propagates an exception: it returns the
decoded buffer exactly on the success path (fetch resolves with an ok
response, the body is read, and decoding succeeds) and `null` in every
failure case; in particular every error thrown inside the `try` block
is caught and turned into `null`. -/
theorem loadBuffer_never_throws : ∀ (f : FetchOutcome) (a : BodyOutcome) (d : DecodeOutcome),
    (∀ buf, f = FetchOutcome.resolve true → a = BodyOutcome.resolve →
      d = DecodeOutcome.resolve buf → loadBuffer f a d = some buf) ∧
    (f = FetchOutcome.reject → loadBuffer f a d = none) ∧
    (f = FetchOutcome.resolve false → loadBuffer f a d = none) ∧
    (a = BodyOutcome.reject → loadBuffer f a d = none) ∧
    (d = DecodeOutcome.reject → loadBuffer f a d = none) ∧
    (∀ e, loadBufferTry f a d = Except.error e → loadBuffer f a d = none) := by
  intro f a d
  cases f with
  | reject => simp [loadBuffer, loadBufferTry]
  | resolve ok =>
      cases ok <;> cases a <;> cases d <;> simp [loadBuffer, loadBufferTry]

/-- Witness for C2 at a concrete successful load. -/
theorem loadBuffer_never_throws_witness :
    loadBuffer (FetchOutcome.resolve true) BodyOutcome.resolve
      (DecodeOutcome.resolve { duration := 2 }) = some { duration := 2 } :=
  (loadBuffer_never_throws (FetchOutcome.resolve true) BodyOutcome.resolve
    (DecodeOutcome.resolve { duration := 2 })).1 { duration := 2 } rfl rfl rfl

/-- C6 counterexample: for the finite fade duration 0.5 ms the computed
crossfade duration is the floor 0.001 s, not `fadeDuration / 1000 =
0.0005` s, so the claim's "equals fadeDuration / 1000 whenever
fadeDuration is a finite number" fails. -/
theorem durSecOf_claim_counterexample :
    durSecOf (JSNum.fin (1/2)) = 1/1000 ∧
    ¬ durSecOf (JSNum.fin (1/2)) = (1/2 : ℚ) / 1000 := by
  constructor
  · show max (1/1000 : ℚ) ((1/2 : ℚ) / 1000) = 1/1000
    rw [max_eq_left (by norm_num)]
  · show ¬ max (1/1000 : ℚ) ((1/2 : ℚ) / 1000) = (1/2 : ℚ) / 1000
    rw [max_eq_left (by norm_num)]
    norm_num

/-- C6 (amended): the crossfade duration in seconds equals
`max(0.001, fadeDuration / 1000)` when `fadeDuration` is a finite
number and `1` otherwise, and in all cases is at least 0.001 s. -/
theorem durSecOf_spec : ∀ fd : JSNum,
    (∀ q, fd = JSNum.fin q → durSecOf fd = max (1/1000) (q / 1000)) ∧
    (fd.isFinite = false → durSecOf fd = 1) ∧
    1/1000 ≤ durSecOf fd := by
  intro fd
  refine ⟨?_, ?_, le_max_left _ _⟩
  · intro q hq
    subst hq
    rfl
  · intro hfin
    cases fd with
    | fin q => simp [JSNum.isFinite] at hfin
    | nan => show max (1/1000 : ℚ) 1 = 1; rw [max_eq_right (by norm_num)]
    | posInf => show max (1/1000 : ℚ) 1 = 1; rw [max_eq_right (by norm_num)]
    | negInf => show max (1/1000 : ℚ) 1 = 1; rw [max_eq_right (by norm_num)]

/-- Witness for C6's amended theorem at a concrete finite duration. -/
theorem durSecOf_spec_witness :
    durSecOf (JSNum.fin 2000) = max (1/1000) (2000 / 1000) :=
  (durSecOf_spec (JSNum.fin 2000)).1 2000 rfl

/-- C7: for every non-null buffer with positive duration,
`createLoopingNodes` yields a source with `loop = true`, started at
`((startOffset % duration) + duration) % duration`, an offset that lies
in `[0, duration)` for every finite `startOffset`, including negative
ones. -/
theorem createLoopingNodes_spec (ctx : AudioCtx) (buf : Buffer)
    (startOffset initialGain : ℚ) (hd : 0 < buf.duration) :
    ∃ src g, createLoopingNodes ctx (some buf) startOffset initialGain = some (src, g) ∧
      src.loop = true ∧
      src.startOffset = jsRem (jsRem startOffset buf.duration + buf.duration) buf.duration ∧
      0 ≤ src.startOffset ∧ src.startOffset < buf.duration ∧
      src.buffer = buf ∧ src.stopped = false ∧ src.connected = true ∧
      g.value = initialGain := by
  have hb := wrapOffset_bounds startOffset buf.duration hd
  exact ⟨_, _, rfl, rfl, rfl, hb.1, hb.2, rfl, rfl, rfl, rfl⟩

/-- Witness for C7 at a buffer of duration 2 and start offset 3
(wrapped to 1). -/
theorem createLoopingNodes_spec_witness :
    (0 : ℚ) < (({ duration := 2 } : Buffer)).duration ∧
    ∃ src g, createLoopingNodes { currentTime := 0, state := CtxState.running }
        (some { duration := 2 }) 3 1 = some (src, g) ∧
      src.loop = true ∧
      src.startOffset = jsRem (jsRem 3 (({ duration := 2 } : Buffer)).duration +
        (({ duration := 2 } : Buffer)).duration) (({ duration := 2 } : Buffer)).duration ∧
      0 ≤ src.startOffset ∧ src.startOffset < (({ duration := 2 } : Buffer)).duration ∧
      src.buffer = { duration := 2 } ∧ src.stopped = false ∧ src.connected = true ∧
      g.value = 1 :=
  ⟨by norm_num,
   createLoopingNodes_spec { currentTime := 0, state := CtxState.running }
     { duration := 2 } 3 1 (by norm_num)⟩

/-- C10: `formatTime` is total on numbers: `'0:00'` for every
non-finite or negative input, and for finite `s ≥ 0` the string
`floor(s/60)`, a colon, and `floor(s mod 60)` zero-padded to two
digits, where the seconds value always lies in `[0, 60)`. -/
theorem formatTime_spec : ∀ x : JSNum,
    (x.isFinite = false → formatTime x = "0:00") ∧
    ∀ s : ℚ, x = JSNum.fin s →
      (s < 0 → formatTime x = "0:00") ∧
      (0 ≤ s →
        formatTime x =
          jsIntToString ⌊s / 60⌋ ++ ":" ++
            padTwo (jsIntToString ⌊s - 60 * (⌊s / 60⌋ : ℚ)⌋) ∧
        0 ≤ ⌊s - 60 * (⌊s / 60⌋ : ℚ)⌋ ∧ ⌊s - 60 * (⌊s / 60⌋ : ℚ)⌋ < 60) := by
  intro x
  constructor
  · intro hfin
    cases x with
    | fin q => simp [JSNum.isFinite] at hfin
    | nan => rfl
    | posInf => rfl
    | negInf => rfl
  · intro s hx
    subst hx
    constructor
    · intro hneg
      simp [formatTime, if_pos hneg]
    · intro hpos
      have hb := jsRem_nonneg_bounds s 60 hpos (by norm_num)
      have hrem : jsRem s 60 = s - 60 * (⌊s / 60⌋ : ℚ) :=
        jsRem_eq_sub_floor s 60 hpos (by norm_num)
      refine ⟨?_, ?_, ?_⟩
      · simp only [formatTime, if_neg (not_lt.mpr hpos), hrem]
      · exact Int.floor_nonneg.mpr (hrem ▸ hb.1)
      · exact Int.floor_lt.mpr (by exact_mod_cast hrem ▸ hb.2)

/-- Witness for C10 at `s = 125` seconds. -/
theorem formatTime_spec_witness :
    formatTime (JSNum.fin 125) =
      jsIntToString ⌊(125 : ℚ) / 60⌋ ++ ":" ++
        padTwo (jsIntToString ⌊(125 : ℚ) - 60 * (⌊(125 : ℚ) / 60⌋ : ℚ)⌋) :=
  (((formatTime_spec (JSNum.fin 125)).2 125 rfl).2 (by norm_num)).1

/-- C1: whenever a gain node exists, `crossfade` cancels its scheduled
values at the current audio time (events at or after `now` are
dropped), pins the gain at its current value at `now`, and schedules a
linear ramp ending at `now + durSec` whose target is 1 for the newly
active soundscape and 0 for the other one. -/
theorem crossfade_ramp_spec (s : ScriptState) (ok : Bool) (ctx : AudioCtx)
    (hctx : s.audioCtx = some ctx) :
    (∀ g, s.aboveGain = some g →
      (crossfade s ok).aboveGain = some
        { value := g.value,
          events := g.events.filter (fun e => decide (e.time < ctx.currentTime)) ++
            [GainEvent.setValue ctx.currentTime g.value,
             GainEvent.linearRamp (ctx.currentTime + durSecOf s.fadeDuration)
               (if flipSide s.active = Side.above then 1 else 0)] }) ∧
    (∀ g, s.belowGain = some g →
      (crossfade s ok).belowGain = some
        { value := g.value,
          events := g.events.filter (fun e => decide (e.time < ctx.currentTime)) ++
            [GainEvent.setValue ctx.currentTime g.value,
             GainEvent.linearRamp (ctx.currentTime + durSecOf s.fadeDuration)
               (if flipSide s.active = Side.below then 1 else 0)] }) := by
  constructor
  · intro g hg
    rw [crossfade_aboveGain_eq s ok ctx g hctx hg]
    rfl
  · intro g hg
    rw [crossfade_belowGain_eq s ok ctx g hctx hg]
    cases hf : flipSide s.active <;> rfl

/-- Witness for C1 at the sample state (above is active, so the ramp on
the above gain targets 0). -/
theorem crossfade_ramp_spec_witness :
    (crossfade sampleState true).aboveGain = some
      { value := 1,
        events := [GainEvent.setValue sampleCtx.currentTime 1,
                   GainEvent.linearRamp
                     (sampleCtx.currentTime + durSecOf sampleState.fadeDuration) 0] } :=
  (crossfade_ramp_spec sampleState true sampleCtx rfl).1 { value := 1, events := [] } rfl

/-- C5: `crossfade` always flips `active` between exactly `above` and
`below`, the flip is an involution, and the ramp targets are computed
from the post-flip active value, so audio and visual state switch
together. -/
theorem crossfade_flip_spec (s : ScriptState) (ok : Bool) :
    (crossfade s ok).active = flipSide s.active ∧
    (s.active = Side.above → (crossfade s ok).active = Side.below) ∧
    (s.active = Side.below → (crossfade s ok).active = Side.above) ∧
    flipSide (flipSide s.active) = s.active ∧
    (crossfade (crossfade s ok) ok).active = s.active ∧
    (∀ ctx g, s.audioCtx = some ctx → s.aboveGain = some g →
      (crossfade s ok).aboveGain =
        some (scheduledGain g ctx.currentTime (durSecOf s.fadeDuration)
          (if (crossfade s ok).active = Side.above then 1 else 0))) ∧
    (∀ ctx g, s.audioCtx = some ctx → s.belowGain = some g →
      (crossfade s ok).belowGain =
        some (scheduledGain g ctx.currentTime (durSecOf s.fadeDuration)
          (if (crossfade s ok).active = Side.below then 1 else 0))) := by
  refine ⟨crossfade_active_eq s ok, ?_, ?_, ?_, ?_, ?_, ?_⟩
  · intro h
    rw [crossfade_active_eq, h]
    rfl
  · intro h
    rw [crossfade_active_eq, h]
    rfl
  · cases hs : s.active <;> rfl
  · rw [crossfade_active_eq, crossfade_active_eq]
    cases hs : s.active <;> rfl
  · intro ctx g hc hg
    rw [crossfade_aboveGain_eq s ok ctx g hc hg, crossfade_active_eq]
  · intro ctx g hc hg
    rw [crossfade_belowGain_eq s ok ctx g hc hg, crossfade_active_eq]
    cases hf : flipSide s.active <;> rfl

/-- Witness for C5 at the sample state. -/
theorem crossfade_flip_spec_witness :
    sampleState.active = Side.above ∧
    (crossfade sampleState true).active = Side.below ∧
    (crossfade sampleState true).belowGain = some
      (scheduledGain { value := 0, events := [] } sampleCtx.currentTime
        (durSecOf sampleState.fadeDuration)
        (if (crossfade sampleState true).active = Side.below then 1 else 0)) :=
  ⟨rfl, (crossfade_flip_spec sampleState true).2.1 rfl,
   (crossfade_flip_spec sampleState true).2.2.2.2.2.2 sampleCtx
     { value := 0, events := [] } rfl rfl⟩

/-- C8: on every crossfade with a context and a splash buffer, exactly
one one-shot (non-looping) source is created for the splash, connected
through its own gain node; `playSplash` is a no-op when the context or
the splash buffer is missing, and in the latter case the crossfade
(flip and gain ramps) still goes through. -/
theorem crossfade_splash_spec (s : ScriptState) (ok : Bool) :
    (∀ ctx buf, s.audioCtx = some ctx → s.splashBuffer = some buf →
      (crossfade s ok).splashPlays = s.splashPlays ++
        [{ buffer := buf, loop := false,
           gain := { value := 1, events := [GainEvent.setValue ctx.currentTime 1] } }] ∧
      (crossfade s ok).splashPlays.length = s.splashPlays.length + 1) ∧
    (s.audioCtx = none →
      playSplash s ok = s ∧ (crossfade s ok).splashPlays = s.splashPlays ∧
      (crossfade s ok).active = flipSide s.active) ∧
    (s.splashBuffer = none →
      playSplash s ok = s ∧ (crossfade s ok).splashPlays = s.splashPlays ∧
      (crossfade s ok).active = flipSide s.active ∧
      (∀ ctx g, s.audioCtx = some ctx → s.aboveGain = some g →
        (crossfade s ok).aboveGain =
          some (scheduledGain g ctx.currentTime (durSecOf s.fadeDuration)
            (if flipSide s.active = Side.above then 1 else 0)))) := by
  refine ⟨?_, ?_, ?_⟩
  · intro ctx buf hc hb
    have h := crossfade_splashPlays_some s ok ctx buf hc hb
    refine ⟨h, ?_⟩
    rw [h, List.length_append]
    rfl
  · intro h
    exact ⟨playSplash_noCtx s ok h, crossfade_splashPlays_noCtx s ok h,
      crossfade_active_eq s ok⟩
  · intro h
    exact ⟨playSplash_noSplash s ok h, crossfade_splashPlays_noSplash s ok h,
      crossfade_active_eq s ok,
      fun ctx g hc hg => crossfade_aboveGain_eq s ok ctx g hc hg⟩

/-- Witness for C8 at the sample state (splash buffer of duration 1). -/
theorem crossfade_splash_spec_witness :
    (crossfade sampleState true).splashPlays = sampleState.splashPlays ++
      [{ buffer := { duration := 1 }, loop := false,
         gain := { value := 1, events := [GainEvent.setValue sampleCtx.currentTime 1] } }] :=
  ((crossfade_splash_spec sampleState true).1 sampleCtx { duration := 1 } rfl rfl).1

/-- C9: after `updateProgressMax`, `progressMax` is the active buffer's
duration clamped below at 0.01 (1 when no buffer is loaded),
`progressEnabled` holds exactly when the active buffer is loaded, and
`progress` is at most `progressMax`, being left unchanged when it
already was. -/
theorem updateProgressMax_spec (s : ScriptState) :
    ((updateProgressMax s).progressMax =
      match activeBuffer s with
      | some b => max (1/100) b.duration
      | none => 1) ∧
    (updateProgressMax s).progressEnabled = (activeBuffer s).isSome ∧
    (updateProgressMax s).progress ≤ (updateProgressMax s).progressMax ∧
    (s.progress ≤ (updateProgressMax s).progressMax →
      (updateProgressMax s).progress = s.progress) := by
  simp only [updateProgressMax]
  split
  case isTrue h =>
    refine ⟨rfl, rfl, le_refl _, ?_⟩
    intro hle
    exact absurd hle (not_le.mpr h)
  case isFalse h =>
    exact ⟨rfl, rfl, le_of_not_lt h, fun _ => rfl⟩

/-- Witness for C9 at the sample state, whose progress 2 is within the
new maximum and is therefore left unchanged. -/
theorem updateProgressMax_spec_witness :
    sampleState.progress ≤ (updateProgressMax sampleState).progressMax ∧
    (updateProgressMax sampleState).progress = sampleState.progress := by
  have h : sampleState.progress ≤ (updateProgressMax sampleState).progressMax := by
    have h1 := (updateProgressMax_spec sampleState).1
    rw [show activeBuffer sampleState = some sampleBuffer from rfl] at h1
    rw [h1]
    exact le_trans (by norm_num [sampleState, sampleBuffer]) (le_max_right _ _)
  exact ⟨h, (updateProgressMax_spec sampleState).2.2.2 h⟩

/-- C3: `onScrub` marks scrubbing, stops and disconnects both current
sources, recreates a fresh looping source per loaded buffer started at
the current slider value (wrapped into the buffer), with initial gain 1
on the side matching `active` and 0 on the other, and sets
`playbackBaseTime = currentTime - offset`. -/
theorem onScrub_spec (s : ScriptState) (ctx : AudioCtx) (hctx : s.audioCtx = some ctx) :
    (onScrub s).isScrubbing = true ∧
    (onScrub s).stoppedLog =
      stopAndDisconnect (stopAndDisconnect s.stoppedLog s.aboveSource) s.belowSource ∧
    (∀ n, s.aboveSource = some n →
      { n with stopped := true, connected := false } ∈ (onScrub s).stoppedLog) ∧
    (∀ n, s.belowSource = some n →
      { n with stopped := true, connected := false } ∈ (onScrub s).stoppedLog) ∧
    (∀ b, s.aboveBuffer = some b →
      (onScrub s).aboveSource = some
        { buffer := b, loop := true, startOffset := wrapOffset s.progress b.duration,
          stopped := false, connected := true } ∧
      (onScrub s).aboveGain = some
        { value := if s.active = Side.above then 1 else 0, events := [] }) ∧
    (s.aboveBuffer = none → (onScrub s).aboveSource = none) ∧
    (∀ b, s.belowBuffer = some b →
      (onScrub s).belowSource = some
        { buffer := b, loop := true, startOffset := wrapOffset s.progress b.duration,
          stopped := false, connected := true } ∧
      (onScrub s).belowGain = some
        { value := if s.active = Side.below then 1 else 0, events := [] }) ∧
    (s.belowBuffer = none → (onScrub s).belowSource = none) ∧
    (onScrub s).playbackBaseTime = some (ctx.currentTime - s.progress) := by
  unfold onScrub jsOrZero
  have hctxT : ({ s with isScrubbing := true } : ScriptState).audioCtx = some ctx := hctx
  have hlog := restartSourcesAt_stoppedLog { s with isScrubbing := true } s.progress ctx hctxT
  refine ⟨?_, hlog, ?_, ?_, ?_, ?_, ?_, ?_, ?_⟩
  · rw [restartSourcesAt_isScrubbing]
  · intro n hn
    rw [hlog, hn]
    exact mem_stopAndDisconnect _ _ _ (self_mem_stopAndDisconnect _ n)
  · intro n hn
    rw [hlog, hn]
    exact self_mem_stopAndDisconnect _ n
  · intro b hb
    exact restartSourcesAt_aboveSource_some { s with isScrubbing := true } s.progress ctx b hctxT hb
  · intro hb
    exact restartSourcesAt_aboveSource_none { s with isScrubbing := true } s.progress ctx hctxT hb
  · intro b hb
    exact restartSourcesAt_belowSource_some { s with isScrubbing := true } s.progress ctx b hctxT hb
  · intro hb
    exact restartSourcesAt_belowSource_none { s with isScrubbing := true } s.progress ctx hctxT hb
  · exact restartSourcesAt_playbackBaseTime { s with isScrubbing := true } s.progress ctx hctxT

/-- Witness for C3 at the sample state. -/
theorem onScrub_spec_witness :
    (onScrub sampleState).isScrubbing = true ∧
    (onScrub sampleState).aboveSource = some
      { buffer := sampleBuffer, loop := true,
        startOffset := wrapOffset sampleState.progress sampleBuffer.duration,
        stopped := false, connected := true } ∧
    (onScrub sampleState).playbackBaseTime =
      some (sampleCtx.currentTime - sampleState.progress) :=
  ⟨(onScrub_spec sampleState sampleCtx rfl).1,
   ((onScrub_spec sampleState sampleCtx rfl).2.2.2.2.1 sampleBuffer rfl).1,
   (onScrub_spec sampleState sampleCtx rfl).2.2.2.2.2.2.2.2⟩

/-- C4: with a resolving promise, `togglePlay` pauses when playing —
capturing the timeline position `(currentTime - playbackBaseTime)`
modulo the active buffer's duration, normalised into `[0, duration)`,
into `progress`, then suspending the context and clearing `isPlaying` —
and when paused it restarts both sources at `progress`, sets
`playbackBaseTime = currentTime - progress` and resumes the context,
setting `isPlaying`, so playback continues from the slider value. -/
theorem togglePlay_spec (s : ScriptState) (ctx : AudioCtx)
    (hctx : s.audioCtx = some ctx) :
    (s.isPlaying = true →
      (∀ base b, s.playbackBaseTime = some base → activeBuffer s = some b →
        0 < b.duration →
        (togglePlay s true).progress = wrapTime (ctx.currentTime - base) b.duration ∧
        (togglePlay s true).progress =
          (ctx.currentTime - base) -
            b.duration * (⌊(ctx.currentTime - base) / b.duration⌋ : ℚ) ∧
        0 ≤ (togglePlay s true).progress ∧
        (togglePlay s true).progress < b.duration) ∧
      (togglePlay s true).isPlaying = false ∧
      (togglePlay s true).audioCtx = some { ctx with state := CtxState.suspended }) ∧
    (s.isPlaying = false →
      (togglePlay s true).isPlaying = true ∧
      (togglePlay s true).audioCtx = some { ctx with state := CtxState.running } ∧
      (togglePlay s true).playbackBaseTime = some (ctx.currentTime - s.progress) ∧
      (∀ b, s.aboveBuffer = some b →
        (togglePlay s true).aboveSource = some
          { buffer := b, loop := true, startOffset := wrapOffset s.progress b.duration,
            stopped := false, connected := true }) ∧
      (∀ b, s.belowBuffer = some b →
        (togglePlay s true).belowSource = some
          { buffer := b, loop := true, startOffset := wrapOffset s.progress b.duration,
            stopped := false, connected := true })) := by
  constructor
  · intro hp
    unfold togglePlay
    rw [hctx, hp]
    refine ⟨?_, rfl, rfl⟩
    intro base b hbase hbuf hdur
    rw [hbase, hbuf]
    have hb := wrapTime_bounds (ctx.currentTime - base) b.duration hdur
    have heq := wrapTime_eq_sub_floor (ctx.currentTime - base) b.duration hdur
    exact ⟨rfl, heq, hb.1, hb.2⟩
  · intro hp
    have hni : ¬ (s.isPlaying = true) := by simp [hp]
    simp only [togglePlay, hctx, if_neg hni, eq_self_iff_true, if_true]
    refine ⟨trivial, trivial, ?_, ?_, ?_⟩
    · exact restartSourcesAt_playbackBaseTime _ _ ctx rfl
    · intro b hb
      refine (restartSourcesAt_aboveSource_some _ _ ctx b ?_ ?_).1
      · rfl
      · exact hb
    · intro b hb
      refine (restartSourcesAt_belowSource_some _ _ ctx b ?_ ?_).1
      · rfl
      · exact hb

/-- Witness for C4: pausing the sample state captures
`(10 - 8) mod 4 = 2` and suspends. -/
theorem togglePlay_spec_witness :
    (togglePlay sampleState true).progress =
      wrapTime (sampleCtx.currentTime - 8) sampleBuffer.duration ∧
    (togglePlay sampleState true).isPlaying = false ∧
    (togglePlay sampleState true).audioCtx =
      some { sampleCtx with state := CtxState.suspended } :=
  ⟨(((togglePlay_spec sampleState sampleCtx rfl).1 rfl).1 8 sampleBuffer rfl rfl
      (by norm_num [sampleBuffer])).1,
   ((togglePlay_spec sampleState sampleCtx rfl).1 rfl).2.1,
   ((togglePlay_spec sampleState sampleCtx rfl).1 rfl).2.2⟩
